import Mathlib

/-!
Verification development for the Gmail AI Reply Assistant browser extension.

The definitions below are a shallow embedding of the JavaScript source:

* `src/utils/storage.js` — settings record, defaults, `getSettings`;
* `dist/background.js`   — `callOpenAI` (retry policy), `createPrompt`;
* `src/content.js`       — `appendDraft`, `htmlDecode`, the modal open/close
  logic, button injection/cleanup, `extractEmailContext`, and the
  improve-text result handler.

Strings are modelled as `List Char` (JS strings are sequences of UTF-16
code units; all inputs of interest here are plain characters).  DOM state
is modelled by explicit record types carrying exactly the pieces of state
the embedded functions read and write.
-/

/-! ## Character-list string utilities (JS primitive behaviour) -/

/-- Model of the JS whitespace test used by `String.prototype.trim`
(restricted to the simple whitespace characters that occur in message
text).  Matches `Char.isWhitespace` on ASCII. -/
def jsIsWhitespace (c : Char) : Bool := c.isWhitespace

/-- Model of `String.prototype.trim`: drop whitespace from both ends. -/
def trimChars (s : List Char) : List Char :=
  ((s.dropWhile jsIsWhitespace).reverse.dropWhile jsIsWhitespace).reverse

/-- Decidable substring containment on character lists: does `pat` occur
contiguously inside `s`?  Mirrors a JS regex test for a fixed literal
pattern. -/
def containsSeq (s pat : List Char) : Bool :=
  match s with
  | [] => pat.isEmpty
  | _ :: rest => pat.isPrefixOf s || containsSeq rest pat

/-- Fuel-driven global literal replacement, the semantics of JS
`str.replace(/lit/g, rep)` for a fixed literal pattern `pat` (leftmost,
non-overlapping, one pass).  `fuel` ≥ `s.length` makes the fuel
irrelevant for non-empty patterns. -/
def replaceAllFuel : Nat → List Char → List Char → List Char → List Char
  | 0, s, _, _ => s
  | fuel + 1, s, pat, rep =>
    match s with
    | [] => []
    | c :: rest =>
      if pat.isPrefixOf s then rep ++ replaceAllFuel fuel (s.drop pat.length) pat rep
      else c :: replaceAllFuel fuel rest pat rep

/-- String-level wrapper for global literal replacement. -/
def replaceAllStr (s pat rep : String) : String :=
  ⟨replaceAllFuel s.data.length s.data pat.data rep.data⟩

/-- Lower-casing of a character list, for case-insensitive regex tests
(`/…/i`). -/
def lowerChars (s : List Char) : List Char := s.map Char.toLower

/-- Case-insensitive substring test, the semantics of a JS
`/pat/i.test(s)` for a fixed lower-case literal `pat`. -/
def containsCI (s pat : String) : Bool :=
  containsSeq (lowerChars s.data) (lowerChars pat.data)

/-! Basic lemmas about the string utilities. -/

theorem containsSeq_false_not_isPrefixOf {s pat : List Char}
    (h : containsSeq s pat = false) : pat.isPrefixOf s = false := by
  cases s with
  | nil =>
    cases pat with
    | nil => simp [containsSeq, List.isEmpty] at h
    | cons p ps => simp [List.isPrefixOf]
  | cons c rest =>
    simp [containsSeq] at h
    exact h.1

theorem containsSeq_false_tail {c : Char} {rest pat : List Char}
    (h : containsSeq (c :: rest) pat = false) : containsSeq rest pat = false := by
  simp [containsSeq] at h
  exact h.2

/-- Replacing a pattern that does not occur in a string leaves the string
unchanged, for any amount of fuel. -/
theorem replaceAllFuel_of_not_contains (fuel : Nat) (s pat rep : List Char)
    (h : containsSeq s pat = false) : replaceAllFuel fuel s pat rep = s := by
  induction fuel generalizing s with
  | zero => rfl
  | succ n ih =>
    cases s with
    | nil => rfl
    | cons c rest =>
      have hpre := containsSeq_false_not_isPrefixOf h
      have htail := containsSeq_false_tail h
      simp [replaceAllFuel, hpre, ih rest htail]

/-- String-level corollary: `replaceAllStr` is the identity when the
pattern does not occur. -/
theorem replaceAllStr_of_not_contains (s pat rep : String)
    (h : containsSeq s.data pat.data = false) : replaceAllStr s pat rep = s := by
  unfold replaceAllStr
  rw [replaceAllFuel_of_not_contains _ _ _ _ h]

/-! ## Embedding of `src/utils/storage.js` -/

/-- A settings record.  Each field is `Option String`: `none` models a key
that is absent from the JS object (reads of it yield `undefined`).
The field list is the union of the keys `DEFAULT_SETTINGS` defines and
the keys `dist/background.js` reads (`composeModel`, `gmailImproveModel`,
`generalImproveModel`, `composeReasoningEffort`, `improveReasoningEffort`,
`generalImproveEffort`) plus the keys the options page writes. -/
structure SettingsRec where
  apiKey : Option String := none
  model : Option String := none
  promptTemplate : Option String := none
  improvePromptTemplate : Option String := none
  genericImprovePromptTemplate : Option String := none
  composeModel : Option String := none
  gmailImproveModel : Option String := none
  generalImproveModel : Option String := none
  composeReasoningEffort : Option String := none
  improveReasoningEffort : Option String := none
  generalImproveEffort : Option String := none
  deriving Repr, DecidableEq

/-- The `DEFAULT_GENERIC_IMPROVE_PROMPT` constant of `storage.js`. -/
def DEFAULT_GENERIC_IMPROVE_PROMPT : String :=
  "Act as a proofreading expert. Carefully review the following text for spelling mistakes, typos, and minor grammatical errors. Correct any issues you find, but do not change the style or meaning of the original message. Return only the corrected version. Simplify when possible, less is more. Do not end sentences with a \".\" unless there is one already in the selected text. User may leave specific instructions within <> notation. Act on those instructions. \n\n[Selected_text]"

/-- The `DEFAULT_SETTINGS` constant of `storage.js`.  Note which keys it
does NOT define: none of the per-flow model or reasoning-effort keys are
present. -/
def DEFAULT_SETTINGS : SettingsRec where
  apiKey := some ""
  model := some "gpt-4o"
  promptTemplate := some "Write a draft response to the emails below in the context. Keep it simple, respect my tone (informal) and the language of the email chain. Use paragraphs wisely, do not over index on them. User may leave specific instructions within <> notation, those are not part of the email but will give you info about how to redact it. Act on those instructions. Sign with Álvaro when appropriate. \n\nThese are talking points:\n[Bullet_points]\n\nEmail context:\n[Email_context]"
  improvePromptTemplate := some "Correct typos and improve the message, maintaining the tone and length, keeping in mind the conversation context (if available), and the language of the draft. The selected text to improve is:\n\n[Selected_text]\n\nConversation context (if any):\n[Email_context]"
  genericImprovePromptTemplate := some DEFAULT_GENERIC_IMPROVE_PROMPT

/-- JS object-spread merge `{ ...defaults, ...stored }`: a key present in
`stored` wins, a key absent in `stored` falls back to `defaults`. -/
def mergeSettings (defaults stored : SettingsRec) : SettingsRec where
  apiKey := stored.apiKey <|> defaults.apiKey
  model := stored.model <|> defaults.model
  promptTemplate := stored.promptTemplate <|> defaults.promptTemplate
  improvePromptTemplate := stored.improvePromptTemplate <|> defaults.improvePromptTemplate
  genericImprovePromptTemplate :=
    stored.genericImprovePromptTemplate <|> defaults.genericImprovePromptTemplate
  composeModel := stored.composeModel <|> defaults.composeModel
  gmailImproveModel := stored.gmailImproveModel <|> defaults.gmailImproveModel
  generalImproveModel := stored.generalImproveModel <|> defaults.generalImproveModel
  composeReasoningEffort := stored.composeReasoningEffort <|> defaults.composeReasoningEffort
  improveReasoningEffort := stored.improveReasoningEffort <|> defaults.improveReasoningEffort
  generalImproveEffort := stored.generalImproveEffort <|> defaults.generalImproveEffort

/-- Embedding of `getSettings()` (`storage.js` lines 26-38): read the
stored record (an empty object when nothing is stored) and merge it over
`DEFAULT_SETTINGS`. -/
def getSettings (stored : SettingsRec) : SettingsRec :=
  mergeSettings DEFAULT_SETTINGS stored

/-- An empty settings store: no key was ever written. -/
def emptyStored : SettingsRec := {}

/-! ## Embedding of `createPrompt` (`dist/background.js` lines 144-152) -/

/-- The `[Bullet_points]` placeholder token. -/
def BULLET_TOKEN : String := "[Bullet_points]"

/-- The `[Email_context]` placeholder token. -/
def CONTEXT_TOKEN : String := "[Email_context]"

/-- Embedding of `createPrompt(template, bulletPoints, emailContext)`:
globally replace `[Bullet_points]` with the talking points, then globally
replace `[Email_context]` in the result with the context.  (JS `$`-escape
sequences in the replacement strings are not modelled; the values of
interest contain none.) -/
def createPrompt (template bulletPoints emailContext : String) : String :=
  replaceAllStr (replaceAllStr template BULLET_TOKEN bulletPoints) CONTEXT_TOKEN emailContext

/-! ## Embedding of `callOpenAI` (`dist/background.js` lines 82-135) -/

/-- An HTTP response from the remote API as `callOpenAI` observes it:
`ok` is `response.ok`, `status` is `response.status`, `text` is the body
read by `response.text()` on failure, and `content` is
`data.choices[0].message.content` when the body parses to the expected
shape (`none` models any malformed payload). -/
structure ApiResponse where
  ok : Bool
  status : Nat
  text : String
  content : Option String
  deriving Repr, DecidableEq

/-- Parsing of a successful response body
(`data.choices[0].message.content.trim()`, with the
`Invalid response format from OpenAI API` error when absent). -/
def parseApiResponse (r : ApiResponse) : Except String String :=
  match r.content with
  | some c => .ok ⟨trimChars c.data⟩
  | none => .error "Invalid response format from OpenAI API"

/-- Embedding of `callOpenAI`.  The network is an oracle mapping the one
varying part of the request body — whether the `reasoning` field is
present — to a response.  `hasEffort` models a truthy `reasoningEffort`
argument; `doRequest(includeReasoning)` includes the field exactly when
`includeReasoning && reasoningEffort`.  The second component of the
result is the transcript of issued requests (their reasoning-field
flags, in order). -/
def callOpenAI (oracle : Bool → ApiResponse) (hasEffort : Bool) :
    Except String String × List Bool :=
  let flag1 := true && hasEffort
  let r1 := oracle flag1
  if r1.ok then
    (parseApiResponse r1, [flag1])
  else if r1.status == 400 && containsCI r1.text "reasoning" then
    -- retry exactly once without the reasoning parameter
    let r2 := oracle false
    if r2.ok then
      (parseApiResponse r2, [flag1, false])
    else
      (.error ("OpenAI API error (" ++ toString r2.status ++ ") after retry: " ++ r2.text),
        [flag1, false])
  else if r1.status == 400 && containsCI r1.text "temperature" then
    (.error ("OpenAI API error (" ++ toString r1.status ++ "): " ++ r1.text), [flag1])
  else
    (.error ("OpenAI API error (" ++ toString r1.status ++ "): " ++ r1.text), [flag1])

/-! ## Embedding of `appendDraft` (`src/content.js` lines 135-212) -/

/-- The slice of an editable compose element that `appendDraft` reads:
its `contenteditable` attribute and its text content. -/
structure EditableDiv where
  contenteditable : Bool
  textContent : List Char
  deriving Repr, DecidableEq

/-- The separator `appendDraft` computes before inserting: one space when
the element has existing content (`textContent.trim().length > 0`) whose
last character (`textContent.slice(-1)`) is neither a space nor a
newline, otherwise nothing. -/
def appendSeparator (content : List Char) : List Char :=
  if trimChars content ≠ [] then
    match content.getLast? with
    | some c => if c ≠ ' ' ∧ c ≠ '\n' then [' '] else []
    | none => []
  else []

/-- Embedding of `appendDraft(composeWindow, draftText)`.  Returns `none`
when the function bails out returning `false` (missing element, empty
draft, element not contenteditable) and otherwise the resulting text
content together with the caret position.  The in-place insertion command
inserts at the caret; the caret is modelled at the end of the existing
content, which is also where the `appendChild` fallback inserts and
matches the function's documented append semantics.  Both paths leave the
caret at the end of the inserted text. -/
def appendDraft (composeWindow : Option EditableDiv) (draftText : List Char) :
    Option (List Char × Nat) :=
  match composeWindow with
  | none => none
  | some div =>
    if draftText = [] then none
    else if div.contenteditable = false then none
    else
      let textToInsert := appendSeparator div.textContent ++ draftText
      let result := div.textContent ++ textToInsert
      some (result, result.length)

/-- Convenience form of `appendDraft` on the text alone (a contenteditable
element with the given content). -/
def appendDraftText (content draft : List Char) : List Char :=
  content ++ appendSeparator content ++ draft

/-! ## Embedding of `htmlDecode` and the modal prefill
(`src/content.js` lines 381-385, 692-704 and 787-796) -/

/-- Embedding of `htmlDecode(text)`.  The source assigns the text to a
`textarea`'s `innerHTML` and reads back `value`; in the textarea's
raw-text parsing mode this decodes character references and leaves
everything else (including `<...>` sequences) untouched.  Per the
function's own doc comment, the basic entities `&amp;`, `&lt;`, `&gt;`,
`&quot;`, `&#39;` are modelled; other text passes through verbatim. -/
def htmlDecodeChars : List Char → List Char
  | [] => []
  | '&' :: 'a' :: 'm' :: 'p' :: ';' :: rest => '&' :: htmlDecodeChars rest
  | '&' :: 'l' :: 't' :: ';' :: rest => '<' :: htmlDecodeChars rest
  | '&' :: 'g' :: 't' :: ';' :: rest => '>' :: htmlDecodeChars rest
  | '&' :: 'q' :: 'u' :: 'o' :: 't' :: ';' :: rest => '"' :: htmlDecodeChars rest
  | '&' :: '#' :: '3' :: '9' :: ';' :: rest => Char.ofNat 39 :: htmlDecodeChars rest
  | c :: rest => c :: htmlDecodeChars rest

/-- Prefill computation of `openModal`: the captured selection string is
HTML-decoded after trimming (`htmlDecode(selectedText.trim())`) when
non-empty, and the textarea is prefilled with the decoded value when that
in turn is non-empty (both `if (selectedText)` guards). -/
def modalPrefill (selected : List Char) : List Char :=
  if selected = [] then []
  else
    let decoded := htmlDecodeChars (trimChars selected)
    if decoded = [] then [] else decoded

/-! ## Embedding of `extractEmailContext` (`src/content.js` lines 821-858) -/

/-- The `MAX_CONTEXT_LENGTH` constant. -/
def MAX_CONTEXT_LENGTH : Nat := 3000

/-- The truncation marker appended when the context is cut off. -/
def TRUNCATION_MARKER : List Char := "... [Full Context Truncated]".data

/-- Embedding of `extractEmailContext(composeWindow)`.  `container` is the
text content of the enclosing email container found by `closest`
(`none` when no container matches); `errored` models an exception thrown
inside the `try` block (caught and converted to a fixed message).  The
function never throws: every path returns a string. -/
def extractEmailContext (container : Option (List Char)) (errored : Bool) : List Char :=
  if errored then "Error extracting email context.".data
  else
    match container with
    | none => "Email context could not be determined.".data
    | some txt =>
      let context :=
        if trimChars txt = [] then "Container found but empty".data else trimChars txt
      if context.length > MAX_CONTEXT_LENGTH then
        context.take MAX_CONTEXT_LENGTH ++ TRUNCATION_MARKER
      else context

/-! ## Embedding of button injection and cleanup
(`src/content.js` lines 1006-1042, 1049-1116, 1121-1136 and 1184-1217) -/

/-- One compose root together with how `findPreferredInjectionPoint`
resolves it from a region.  `primaryRoot` records whether the region's
`closest('.AD, .aoP, .dw, form[target], .gmail_default, .ip.adB')`
(content.js:1053) finds this root; `fallbackRoot` whether the fallback
`closest('form, [role="dialog"], .M9, .aO9, table')` (content.js:1057)
would find a container — the locator's own ancestry filter
(content.js:59) accepts `.M9`/`.aO9` ancestors that the primary list
omits, so both combinations occur for locator-accepted regions.
`hasInjectionPoint` records whether a Send-button parent or fallback
toolbar row exists inside the root; `regionCount` is the number of
locator-accepted compose regions resolving to this root; `marker` is the
`data-ai-buttons-injected` attribute; `buttonSets` counts the injected
Improve+Reply control pairs currently in the root. -/
structure ComposeRoot where
  primaryRoot : Bool
  fallbackRoot : Bool
  hasInjectionPoint : Bool
  regionCount : Nat
  marker : Bool
  buttonSets : Nat
  deriving Repr, DecidableEq

/-- A document, as the injection pass sees it: the compose roots (each
compose region accepted by the locator resolves, via `closest`, to
exactly one of them). -/
abbrev InjectionDoc := List ComposeRoot

/-- Embedding of one `injectButtons(composeWindow)` call restricted to
the region's root.  `none` models the uncaught TypeError thrown at
content.js:1063: when the primary root lookup fails but the fallback
lookup succeeds, the branch executes `composeRoot = fallbackContainer`,
an assignment to the `const composeRoot` binding declared at
content.js:1053, which throws before any injection happens.  When both
lookups fail, or the root offers no injection point,
`findPreferredInjectionPoint` returns null and `injectButtons` returns
`false` without mutating anything; otherwise the marker check and the
insertion proceed as before. -/
def injectButtonsRoot (r : ComposeRoot) : Option ComposeRoot :=
  if r.primaryRoot = false ∧ r.fallbackRoot = true then
    none
  else if r.primaryRoot = false ∨ r.hasInjectionPoint = false then
    some r
  else if r.marker then
    some r
  else
    some { r with marker := true, buttonSets := r.buttonSets + 1 }

/-- `injectButtons` run for each of this root's accepted regions in
turn.  The Boolean records whether a TypeError escaped; the root keeps
the state it had at the throw. -/
def injectRegionsRoot : ComposeRoot → Nat → ComposeRoot × Bool
  | r, 0 => (r, false)
  | r, n + 1 =>
    match injectButtonsRoot r with
    | none => (r, true)
    | some r2 => injectRegionsRoot r2 n

/-- Embedding of `cleanupAllButtons()`: remove the marker attribute from
every marked root and remove every injected control in the document. -/
def cleanupAllButtons (d : InjectionDoc) : InjectionDoc :=
  d.map fun r => { r with marker := false, buttonSets := 0 }

/-- The `composeWindows.forEach` loop of `injectIntoExistingWindows`:
regions are visited in document order (each root's regions modelled
consecutively, which is no restriction for documents with at most one
region per root).  Neither `injectButtons` nor the loop catches
exceptions, so a TypeError aborts the whole scan: later roots are left
untouched. -/
def injectLoop : InjectionDoc → InjectionDoc × Bool
  | [] => ([], false)
  | r :: rest =>
    match injectRegionsRoot r r.regionCount with
    | (r2, true) => (r2 :: rest, true)
    | (r2, false) =>
      let out := injectLoop rest
      (r2 :: out.1, out.2)

/-- Embedding of `injectIntoExistingWindows()`: first `cleanupAllButtons`
over the whole document, then the injection loop.  The second component
records whether the pass died with an uncaught TypeError. -/
def injectIntoExistingWindows (d : InjectionDoc) : InjectionDoc × Bool :=
  injectLoop (cleanupAllButtons d)

/-- Total number of injected control sets present in the document. -/
def totalButtonSets (d : InjectionDoc) : Nat :=
  (d.map ComposeRoot.buttonSets).sum

/-- Total number of compose regions the locator's filter accepts. -/
def totalRegions (d : InjectionDoc) : Nat :=
  (d.map ComposeRoot.regionCount).sum


/-! ## Embedding of `openModal` / `closeModal`
(`src/content.js` lines 390-423 and 654-813) -/

/-- The module-level modal state of the content script: the number of
`ai-modal-host` elements in the document body, whether the `shadowRoot`
reference is set, and the `currentComposeWindow` reference (`some id` of
the triggering compose region). -/
structure ModalState where
  hostCount : Nat
  shadowRootSet : Bool
  currentComposeWindow : Option Nat
  deriving Repr, DecidableEq

/-- Embedding of `closeModal()`: remove the host element from the
document, clear `modalHost`, `shadowRoot` and `currentComposeWindow`.
(The fallback path also removes any element with the fixed host id.) -/
def closeModal (_st : ModalState) : ModalState :=
  { hostCount := 0, shadowRootSet := false, currentComposeWindow := none }

/-- Embedding of one complete (non-interleaved) run of
`openModal(triggeringComposeWindow)`: the `getElementById` guard, the
settings fetch (`settingsOk` models a successful `getSettings` response),
host creation + shadow attachment, the modal resource fetch
(`resourcesOk`), and on success the `currentComposeWindow` assignment.
Returns the JS boolean result together with the state after the call. -/
def openModal (st : ModalState) (settingsOk resourcesOk : Bool) (w : Nat) :
    Bool × ModalState :=
  if st.hostCount ≠ 0 then (false, st)
  else if settingsOk = false then (false, st)
  else
    let created : ModalState :=
      { hostCount := st.hostCount + 1, shadowRootSet := true
        currentComposeWindow := st.currentComposeWindow }
    if resourcesOk = false then (false, closeModal created)
    else (true, { created with currentComposeWindow := some w })

/-- Actions of the sequential (non-overlapping-calls) modal transition
system. -/
inductive ModalAction where
  | openM (settingsOk resourcesOk : Bool) (w : Nat)
  | closeM
  deriving Repr, DecidableEq

/-- One sequential step. -/
def modalStepAction (st : ModalState) : ModalAction → ModalState
  | .openM s r w => (openModal st s r w).2
  | .closeM => closeModal st

/-- Initial content-script state: no host, no shadow root, no compose
window reference. -/
def modalInit : ModalState := ⟨0, false, none⟩

/-- Run a list of sequential actions from the initial state. -/
def modalRun (acts : List ModalAction) : ModalState :=
  acts.foldl modalStepAction modalInit

/-! ### Interleaved `openModal` calls

`openModal` is `async`: it suspends at the settings fetch
(`await chrome.runtime.sendMessage({type: 'getSettings'})`, line 666)
between the `getElementById` guard (line 656) and host creation
(lines 708-710), and suspends again at the modal resource fetch
(lines 716-719) before finishing.  The model below runs two `openModal`
invocations under an explicit scheduler, one suspension point per
step. -/

/-- Where a single in-flight `openModal` invocation currently is. -/
inductive OpenPhase where
  /-- About to execute the `getElementById(MODAL_HOST_ID)` guard. -/
  | atGuard
  /-- Suspended at the `getSettings` message await. -/
  | atSettings
  /-- Suspended at the modal HTML/CSS fetch await (host already created). -/
  | atResources
  /-- Returned with the given boolean. -/
  | finished (result : Bool)
  deriving Repr, DecidableEq

/-- Advance one invocation by one scheduler quantum.  `outcome` resolves
the pending await (settings fetch success / resource fetch success).
Returns the new phase and the new host-element count. -/
def openStep (hostCount : Nat) (p : OpenPhase) (outcome : Bool) : OpenPhase × Nat :=
  match p with
  | .atGuard =>
    -- line 656: if a host element exists, return false immediately
    if hostCount ≠ 0 then (.finished false, hostCount)
    else (.atSettings, hostCount)
  | .atSettings =>
    -- lines 666-687: settings await resolves; on failure return false,
    -- on success create the host element (lines 708-710) and suspend at
    -- the resource fetch
    if outcome = false then (.finished false, hostCount)
    else (.atResources, hostCount + 1)
  | .atResources =>
    -- lines 716-812: resource await resolves; on failure `closeModal`
    -- removes this invocation's host, on success the modal is complete
    if outcome = false then (.finished false, hostCount - 1)
    else (.finished true, hostCount)
  | .finished b => (.finished b, hostCount)

/-- State of two interleaved `openModal` invocations over one document. -/
structure TwoOpens where
  hostCount : Nat
  first : OpenPhase
  second : OpenPhase
  deriving Repr, DecidableEq

/-- One scheduler step: advance the selected invocation (`false` = first,
`true` = second) with the given await outcome. -/
def twoOpensStep (st : TwoOpens) (which : Bool) (outcome : Bool) : TwoOpens :=
  if which = false then
    let (p, h) := openStep st.hostCount st.first outcome
    { st with first := p, hostCount := h }
  else
    let (p, h) := openStep st.hostCount st.second outcome
    { st with second := p, hostCount := h }

/-- Run a schedule (a list of `(which, outcome)` quanta) from a document
with no host and both invocations at their entry guard. -/
def twoOpensRun (sched : List (Bool × Bool)) : TwoOpens :=
  sched.foldl (fun st q => twoOpensStep st q.1 q.2) ⟨0, .atGuard, .atGuard⟩

/-! ## Embedding of the modal event handlers
(`src/content.js` lines 429-460, 466-489, 494-502 and 742-785) -/

/-- The state of the open modal UI as the event handlers see it: whether
the host is still in the document and whether the Submitting phase is
active (`toggleSpinner(true)` has run, which disables both the Submit and
the Cancel button). -/
structure ModalUIState where
  isOpen : Bool
  submitting : Bool
  deriving Repr, DecidableEq

/-- User events delivered to the open modal.  `overlayClick` carries
whether the click landed directly on the dimming overlay
(`event.target === overlay`) or inside the content box. -/
inductive ModalEvent where
  | escapeKey
  | overlayClick (onOverlay : Bool)
  | cancelClick
  | submitClick
  deriving Repr, DecidableEq

/-- The closed modal UI state. -/
def modalClosedUI : ModalUIState := ⟨false, false⟩

/-- One event dispatch against the open modal.  Returns the next state
and whether this dispatch sent a `generate` request over the bridge.

* `escapeKey`: `handleKeyDown` calls `closeModal()` whenever the shadow
  root exists — it does not consult the Submitting phase (lines 429-435).
* `overlayClick`: the overlay listener closes only when the click target
  is the overlay itself (lines 772-782); it also does not consult the
  Submitting phase.
* `cancelClick` / `submitClick`: the browser does not deliver clicks to a
  disabled button, and `toggleSpinner(show)` sets `disabled := show` on
  both buttons (lines 484-488), so these fire only outside Submitting.
  Cancel closes the modal (line 742); Submit enters Submitting and sends
  the `generate` message (lines 494-540). -/
def modalDispatch (st : ModalUIState) (e : ModalEvent) : ModalUIState × Bool :=
  if st.isOpen = false then (st, false)
  else
    match e with
    | .escapeKey => (modalClosedUI, false)
    | .overlayClick onOverlay =>
      if onOverlay then (modalClosedUI, false) else (st, false)
    | .cancelClick =>
      if st.submitting then (st, false) else (modalClosedUI, false)
    | .submitClick =>
      if st.submitting then (st, false) else ({ isOpen := true, submitting := true }, true)

/-! ## Embedding of `handleImproveTextResult` and `replaceOrShowOverlay`
(`src/content.js` lines 1224-1315 and 1323-1369) -/

/-- The environment `handleImproveTextResult` finds on the page when a
successful improve response arrives. -/
structure ImproveEnv where
  /-- `findActiveComposeWindow()` found a Gmail compose window. -/
  activeComposeWindow : Bool
  /-- `document.execCommand('insertText', …)` succeeds in the Gmail
  compose branch. -/
  gmailExecOk : Bool
  /-- `lastInputSelection` is set (the improve flow started inside an
  input/textarea). -/
  hasInputSelection : Bool
  /-- `lastSelectionRange`'s common ancestor sits inside an
  input/textarea (`container.closest('input, textarea')` is non-null). -/
  rangeInInput : Bool
  /-- The direct input/textarea manipulation throws (caught inside the
  generic branch's inner try). -/
  inputInjectThrows : Bool
  /-- `lastSelectionRange` is set. -/
  hasSelectionRange : Bool
  /-- `replaceOrShowOverlay`: the restored selection sits in an editable
  element (contenteditable / textarea / text-like input). -/
  selectionEditable : Bool
  /-- `replaceOrShowOverlay`: `document.execCommand('insertText', …)`
  succeeds there. -/
  overlayExecOk : Bool
  /-- `window.getSelection().rangeCount > 0` in the final fallback
  branch. -/
  hasCurrentSelection : Bool
  deriving Repr, DecidableEq

/-- Observable outcome of handling one successful improve response. -/
structure ImproveOutcome where
  /-- The handler wrote the improved text to the system clipboard. -/
  clipboardWritten : Bool
  /-- A banner was shown on the compose window (its type string). -/
  banner : Option String
  /-- The suggestion overlay (with its manual Copy button) was shown. -/
  overlayShown : Bool
  /-- A blocking `alert` carrying the suggestion was shown. -/
  alertShown : Bool
  /-- The `SET_ICON_STATE` value sent at the end. -/
  iconState : String
  deriving Repr, DecidableEq

/-- Embedding of `replaceOrShowOverlay(selectionRange, newText)`: restore
the selection, and only when it sits in an editable element attempt the
in-place insertion command; the overlay fallback was removed from this
function, so every non-editable or failing path just returns `false`. -/
def replaceOrShowOverlay (env : ImproveEnv) : Bool :=
  env.hasSelectionRange && env.selectionEditable && env.overlayExecOk

/-- Embedding of the success path of `handleImproveTextResult(response)`
(`response.success && response.text`), for a given `response.source`
string.  Mirrors the branch structure of lines 1236-1308: the Gmail
branch, the generic branch (input/textarea first, then
`replaceOrShowOverlay`), and the fallback branch (overlay near the
current selection, else a blocking alert). -/
def handleImproveTextResult (source : String) (env : ImproveEnv) : ImproveOutcome :=
  if source = "gmail" ∧ env.activeComposeWindow then
    if env.gmailExecOk then
      { clipboardWritten := false, banner := some "info", overlayShown := false
        alertShown := false, iconState := "idle" }
    else
      { clipboardWritten := false, banner := some "error", overlayShown := false
        alertShown := false, iconState := "error" }
  else if source = "generic" then
    if env.hasInputSelection ∨ (env.hasSelectionRange ∧ env.rangeInInput) then
      if env.inputInjectThrows then
        { clipboardWritten := false, banner := none, overlayShown := false
          alertShown := false, iconState := "error" }
      else
        { clipboardWritten := false, banner := none, overlayShown := false
          alertShown := false, iconState := "idle" }
    else if env.hasSelectionRange then
      if replaceOrShowOverlay env then
        { clipboardWritten := false, banner := none, overlayShown := false
          alertShown := false, iconState := "idle" }
      else
        { clipboardWritten := false, banner := none, overlayShown := false
          alertShown := false, iconState := "error" }
    else
      { clipboardWritten := false, banner := none, overlayShown := false
        alertShown := false, iconState := "error" }
  else
    if env.hasCurrentSelection then
      { clipboardWritten := false, banner := none, overlayShown := true
        alertShown := false, iconState := "idle" }
    else
      { clipboardWritten := false, banner := none, overlayShown := false
        alertShown := true, iconState := "error" }

/-! ## Claim C1 -/

/-- A document all of whose compose roots are resolved by the primary
root selector list, carry an injection anchor and own exactly one
locator-accepted region each (stale markers, stale buttons and the
fallback flag arbitrary). -/
def primaryDoc (rs : List ComposeRoot) : InjectionDoc :=
  rs.map fun r =>
    { r with primaryRoot := true, hasInjectionPoint := true, regionCount := 1 }

/-- The failing document: the first locator-accepted region's only
compose ancestor is a fallback container such as `.M9` (accepted by the
locator's filter, absent from the primary root selectors), the second is
an ordinary anchored compose root with a Send button. -/
def dCrash : InjectionDoc :=
  [ { primaryRoot := false, fallbackRoot := true, hasInjectionPoint := true,
      regionCount := 1, marker := false, buttonSets := 0 },
    { primaryRoot := true, fallbackRoot := true, hasInjectionPoint := true,
      regionCount := 1, marker := false, buttonSets := 0 } ]

theorem cleanup_primaryDoc (rs : List ComposeRoot) :
    cleanupAllButtons (primaryDoc rs) =
      rs.map fun r =>
        { r with
          primaryRoot := true, hasInjectionPoint := true, regionCount := 1
          marker := false, buttonSets := 0 } := by
  induction rs with
  | nil => rfl
  | cons r rest ih =>
    simp only [primaryDoc, cleanupAllButtons, List.map_cons] at *
    rw [ih]

theorem cleanup_map_primary (rs : List ComposeRoot) (m : Bool) (b : Nat) :
    cleanupAllButtons (rs.map fun r =>
        { r with
          primaryRoot := true, hasInjectionPoint := true, regionCount := 1
          marker := m, buttonSets := b }) =
      rs.map fun r =>
        { r with
          primaryRoot := true, hasInjectionPoint := true, regionCount := 1
          marker := false, buttonSets := 0 } := by
  induction rs with
  | nil => rfl
  | cons r rest ih =>
    simp only [cleanupAllButtons, List.map_cons] at *
    rw [ih]

/-- On a cleaned, primary-resolved, anchored, one-region-per-root
document the injection loop throws nothing and injects exactly one
control set into every root. -/
theorem injectLoop_cleanPrimary (rs : List ComposeRoot) :
    injectLoop (rs.map fun r =>
        { r with
          primaryRoot := true, hasInjectionPoint := true, regionCount := 1
          marker := false, buttonSets := 0 }) =
      (rs.map fun r =>
        { r with
          primaryRoot := true, hasInjectionPoint := true, regionCount := 1
          marker := true, buttonSets := 1 }, false) := by
  induction rs with
  | nil => rfl
  | cons r rest ih =>
    have hhead : injectRegionsRoot
        { r with
          primaryRoot := true, hasInjectionPoint := true, regionCount := 1
          marker := false, buttonSets := 0 }
        (ComposeRoot.regionCount
          { r with
            primaryRoot := true, hasInjectionPoint := true, regionCount := 1
            marker := false, buttonSets := 0 }) =
        ({ r with
          primaryRoot := true, hasInjectionPoint := true, regionCount := 1
          marker := true, buttonSets := 1 }, false) := rfl
    simp only [List.map_cons, injectLoop, hhead, ih]

theorem totalButtonSets_primary_result (rs : List ComposeRoot) :
    totalButtonSets (rs.map fun r =>
        { r with
          primaryRoot := true, hasInjectionPoint := true, regionCount := 1
          marker := true, buttonSets := 1 }) = rs.length := by
  induction rs with
  | nil => rfl
  | cons r rest ih =>
    simp only [totalButtonSets, List.map_cons, List.sum_cons, List.length_cons] at *
    omega

theorem totalRegions_primaryDoc (rs : List ComposeRoot) :
    totalRegions (primaryDoc rs) = rs.length := by
  induction rs with
  | nil => rfl
  | cons r rest ih =>
    simp only [primaryDoc, totalRegions, List.map_cons, List.sum_cons, List.length_cons] at *
    omega

/-- C1 (code bug): a locator-accepted compose region whose only compose
ancestor is a fallback container (`.M9`/`.aO9`/form/dialog/table) makes
`findPreferredInjectionPoint` execute `composeRoot = fallbackContainer`
— an assignment to a `const` binding — so the pass throws an uncaught
TypeError and the `forEach` aborts right after the initial cleanup: the
two-region failing document ends with ZERO control sets instead of the
claimed two, even though its second root has a Send-button anchor.  The
remaining conjunct records the behaviour the claim describes, which the
code does deliver on documents whose roots are all resolved by the
primary selector list: one pass injects exactly N sets and throws
nothing, and a second pass as well as a cleanup sweep followed by a pass
keep the count at N. -/
theorem claim_injection_crash :
    (injectIntoExistingWindows dCrash).2 = true ∧
    totalButtonSets (injectIntoExistingWindows dCrash).1 = 0 ∧
    totalRegions dCrash = 2 ∧
    (∀ rs : List ComposeRoot,
      injectIntoExistingWindows (primaryDoc rs) =
        (rs.map fun r =>
          { r with
            primaryRoot := true, hasInjectionPoint := true, regionCount := 1
            marker := true, buttonSets := 1 }, false) ∧
      totalButtonSets (injectIntoExistingWindows (primaryDoc rs)).1 =
        totalRegions (primaryDoc rs) ∧
      injectIntoExistingWindows ((injectIntoExistingWindows (primaryDoc rs)).1) =
        (rs.map fun r =>
          { r with
            primaryRoot := true, hasInjectionPoint := true, regionCount := 1
            marker := true, buttonSets := 1 }, false) ∧
      totalButtonSets (injectIntoExistingWindows (cleanupAllButtons (primaryDoc rs))).1 =
        totalRegions (primaryDoc rs)) := by
  refine ⟨rfl, rfl, rfl, ?_⟩
  intro rs
  have hpass : injectIntoExistingWindows (primaryDoc rs) =
      (rs.map fun r =>
        { r with
          primaryRoot := true, hasInjectionPoint := true, regionCount := 1
          marker := true, buttonSets := 1 }, false) := by
    rw [injectIntoExistingWindows, cleanup_primaryDoc, injectLoop_cleanPrimary]
  refine ⟨hpass, ?_, ?_, ?_⟩
  · rw [hpass, totalButtonSets_primary_result, totalRegions_primaryDoc]
  · rw [hpass]
    rw [injectIntoExistingWindows, cleanup_map_primary, injectLoop_cleanPrimary]
  · rw [injectIntoExistingWindows, cleanup_primaryDoc, cleanup_map_primary,
      injectLoop_cleanPrimary, totalButtonSets_primary_result, totalRegions_primaryDoc]

/-! ## Claim C2 -/

theorem modalStepAction_hostCount_le_one (st : ModalState) (a : ModalAction)
    (h : st.hostCount ≤ 1) : (modalStepAction st a).hostCount ≤ 1 := by
  cases a with
  | closeM => simp [modalStepAction, closeModal]
  | openM s r w =>
    simp only [modalStepAction, openModal]
    by_cases hg : st.hostCount ≠ 0
    · simp [hg]; exact h
    · push_neg at hg
      cases s with
      | false => simp [hg]
      | true =>
        cases r with
        | false => simp [hg, closeModal]
        | true => simp [hg]

theorem modalRun_foldl_hostCount (acts : List ModalAction) (st : ModalState)
    (h : st.hostCount ≤ 1) : (acts.foldl modalStepAction st).hostCount ≤ 1 := by
  induction acts generalizing st with
  | nil => exact h
  | cons a rest ih =>
    exact ih (modalStepAction st a) (modalStepAction_hostCount_le_one st a h)

/-- C2 (code bug): the schedule that interleaves two `openModal` calls at
their `getSettings` suspension point produces a document with TWO
`ai-modal-host` elements — the `getElementById` guard runs before the
await, host creation after it, so both invocations pass the guard.  The
remaining conjuncts record the parts of the claim the code does satisfy
when calls do not overlap: a call entered while a host element exists
returns `false` and leaves the state untouched, `closeModal` clears every
piece of session state including the triggering-region reference, and
the sequential (non-overlapping) transition system never exceeds one
host. -/
theorem claim_modal_single_instance_race :
    (twoOpensRun [(false, true), (true, true), (false, true), (true, true)]).hostCount = 2 ∧
    (twoOpensRun [(false, true), (true, true), (false, true), (true, true)]).first = .atResources ∧
    (twoOpensRun [(false, true), (true, true), (false, true), (true, true)]).second = .atResources ∧
    (∀ (n : Nat) (sr : Bool) (cw : Option Nat) (s r : Bool) (w : Nat),
      openModal ⟨n + 1, sr, cw⟩ s r w = (false, ⟨n + 1, sr, cw⟩)) ∧
    (∀ st : ModalState, closeModal st = ⟨0, false, none⟩) ∧
    (∀ acts : List ModalAction, (modalRun acts).hostCount ≤ 1) := by
  refine ⟨rfl, rfl, rfl, ?_, fun _ => rfl, ?_⟩
  · intro n sr cw s r w
    simp [openModal]
  · intro acts
    exact modalRun_foldl_hostCount acts modalInit (by simp [modalInit])

/-! ## Claim C3 -/

/-- A remote endpoint that rejects every request with a 422 status whose
error text names the reasoning parameter (a "400-class" rejection that is
not exactly status 400). -/
def oracle422 : Bool → ApiResponse := fun _ =>
  { ok := false, status := 422
    text := "Unsupported parameter: reasoning.effort is not supported with this model."
    content := none }

/-- Counterexample to C3: the code retries only on status exactly 400.
A 400-class rejection (status 422) whose error text refers to the
reasoning-effort parameter is surfaced immediately after a single
request — no retry happens, contradicting the claim that every 4xx
rejection mentioning the parameter is retried once. -/
theorem claim_reasoning_retry_counterexample :
    400 ≤ (oracle422 true).status ∧ (oracle422 true).status < 500 ∧
    (oracle422 true).ok = false ∧
    containsCI (oracle422 true).text "reasoning" = true ∧
    (callOpenAI oracle422 true).2 = [true] ∧
    (callOpenAI oracle422 true).1 =
      .error ("OpenAI API error (422): " ++ (oracle422 true).text) := by
  refine ⟨by decide, by decide, rfl, by decide, ?_, ?_⟩ <;> rfl

/-- A remote endpoint that rejects a request carrying the reasoning field
with status 400 and accepts the retry without it. -/
def oracle400 : Bool → ApiResponse := fun withReasoning =>
  if withReasoning then
    { ok := false, status := 400
      text := "Unknown parameter: reasoning", content := none }
  else
    { ok := true, status := 200, text := "", content := some "Draft reply." }

/-- C3 (amended): only a rejection with status exactly 400 whose error
text contains "reasoning" (case-insensitively) triggers the automatic
retry, which is issued exactly once and without the reasoning field;
every other failing first response is surfaced immediately after that
single request; at most two requests are ever issued per call. -/
theorem claim_reasoning_retry_amended (oracle : Bool → ApiResponse) (hasEffort : Bool) :
    (callOpenAI oracle hasEffort).2.length ≤ 2 ∧
    ((callOpenAI oracle hasEffort).2.length = 2 ↔
      (oracle hasEffort).ok = false ∧ (oracle hasEffort).status = 400 ∧
        containsCI (oracle hasEffort).text "reasoning" = true) ∧
    ((oracle hasEffort).ok = false →
      (oracle hasEffort).status = 400 →
      containsCI (oracle hasEffort).text "reasoning" = true →
      (callOpenAI oracle hasEffort).2 = [hasEffort, false]) ∧
    ((oracle hasEffort).ok = false →
      ((oracle hasEffort).status = 400 ∧
        containsCI (oracle hasEffort).text "reasoning" = true → False) →
      (callOpenAI oracle hasEffort).2 = [hasEffort] ∧
      (callOpenAI oracle hasEffort).1 =
        .error ("OpenAI API error (" ++ toString (oracle hasEffort).status ++ "): " ++
          (oracle hasEffort).text)) := by
  simp only [callOpenAI, Bool.true_and]
  by_cases h1 : (oracle hasEffort).ok
  · simp [h1]
  · by_cases h2 : (oracle hasEffort).status = 400 ∧
        containsCI (oracle hasEffort).text "reasoning" = true
    · have hs : ((oracle hasEffort).status == 400) = true := by
        simp [h2.1]
      by_cases h3 : (oracle false).ok
      · simp [h1, hs, h2.1, h2.2, h3]
      · simp [h1, hs, h2.1, h2.2, h3]
    · by_cases hst : (oracle hasEffort).status = 400
      · have hre : containsCI (oracle hasEffort).text "reasoning" = false := by
          rcases Bool.eq_false_or_eq_true (containsCI (oracle hasEffort).text "reasoning") with
            h | h
          · exact absurd ⟨hst, h⟩ h2
          · exact h
        have hs : ((oracle hasEffort).status == 400 &&
            containsCI (oracle hasEffort).text "reasoning") = false := by
          simp [hre]
        simp [h1, hs, hst, hre]
      · have hs : ((oracle hasEffort).status == 400 &&
            containsCI (oracle hasEffort).text "reasoning") = false := by
          simp [hst]
        simp [h1, hs, hst]

/-- Witness for C3 (amended): a status-400 rejection naming the reasoning
parameter is followed by exactly one retry without the reasoning
field. -/
theorem claim_reasoning_retry_amended_witness :
    (oracle400 true).ok = false ∧ (oracle400 true).status = 400 ∧
    containsCI (oracle400 true).text "reasoning" = true ∧
    (callOpenAI oracle400 true).2 = [true, false] := by
  refine ⟨rfl, rfl, by decide, ?_⟩
  exact (claim_reasoning_retry_amended oracle400 true).2.2.1 rfl rfl (by decide)

/-! ## Claim C4 -/

/-- C4 (code bug): on an empty settings store, `getSettings` resolves the
five keys `DEFAULT_SETTINGS` defines — but none of the keys the
background handler reads for the per-flow model and reasoning-effort
selection.  `settings.composeModel`, `settings.gmailImproveModel`,
`settings.generalImproveModel`, `settings.composeReasoningEffort`,
`settings.improveReasoningEffort` and `settings.generalImproveEffort` are
all `undefined` after `getSettings()` on a record that predates those
fields, contradicting the read-time-defaults invariant (and the repo's
own TODO notes, which call out exactly this inconsistency). -/
theorem claim_settings_defaults_missing :
    (getSettings emptyStored).composeModel = none ∧
    (getSettings emptyStored).gmailImproveModel = none ∧
    (getSettings emptyStored).generalImproveModel = none ∧
    (getSettings emptyStored).composeReasoningEffort = none ∧
    (getSettings emptyStored).improveReasoningEffort = none ∧
    (getSettings emptyStored).generalImproveEffort = none ∧
    (getSettings emptyStored).apiKey = some "" ∧
    (getSettings emptyStored).model = some "gpt-4o" ∧
    (getSettings emptyStored).promptTemplate = DEFAULT_SETTINGS.promptTemplate ∧
    (getSettings emptyStored).improvePromptTemplate = DEFAULT_SETTINGS.improvePromptTemplate ∧
    (getSettings emptyStored).genericImprovePromptTemplate =
      DEFAULT_SETTINGS.genericImprovePromptTemplate :=
  ⟨rfl, rfl, rfl, rfl, rfl, rfl, rfl, rfl, rfl, rfl, rfl⟩

/-! ## Claim C5 -/

/-- Counterexample to C5: the code inserts its separating space unless
the last character is a space or a newline — for content ending in a TAB
(which is whitespace) it still inserts a space, so "no extra space when
the existing content ends in whitespace" fails. -/
theorem claim_append_draft_counterexample :
    jsIsWhitespace '\t' = true ∧
    appendDraftText "Hello\t".data "Thanks!".data = "Hello\t Thanks!".data ∧
    "Hello\t Thanks!".data ≠ "Hello\t".data ++ "Thanks!".data := by
  exact ⟨by decide, by decide, by decide⟩

/-- C5 (amended): for a contenteditable compose region and a non-empty
draft, `appendDraft` appends the draft after the existing content and
reports the caret at the end of the result; no separator is added when
the content is whitespace-only or ends in a space or a newline character
(other trailing whitespace such as TAB still receives a space), and
exactly one space is added when non-blank content ends in any other
character. -/
theorem claim_append_draft_amended (div : EditableDiv) (draft : List Char)
    (hc : div.contenteditable = true) (hd : draft ≠ []) :
    appendDraft (some div) draft =
      some (appendDraftText div.textContent draft,
        (appendDraftText div.textContent draft).length) ∧
    (trimChars div.textContent = [] →
      appendDraftText div.textContent draft = div.textContent ++ draft) ∧
    (div.textContent.getLast? = some ' ' ∨ div.textContent.getLast? = some '\n' →
      appendDraftText div.textContent draft = div.textContent ++ draft) ∧
    (∀ c : Char, trimChars div.textContent ≠ [] → div.textContent.getLast? = some c →
      c ≠ ' ' → c ≠ '\n' →
      appendDraftText div.textContent draft = div.textContent ++ ' ' :: draft) := by
  refine ⟨?_, ?_, ?_, ?_⟩
  · simp [appendDraft, hd, hc, appendDraftText]
  · intro h
    simp [appendDraftText, appendSeparator, h]
  · intro h
    by_cases ht : trimChars div.textContent = []
    · simp [appendDraftText, appendSeparator, ht]
    · rcases h with h | h <;> simp [appendDraftText, appendSeparator, ht, h]
  · intro c ht hl hs hn
    simp [appendDraftText, appendSeparator, ht, hl, hs, hn]

/-- Witness for C5 (amended): appending "Thanks!" to content "Hello"
yields "Hello Thanks!" with the caret at position 13. -/
theorem claim_append_draft_amended_witness :
    appendDraft (some ⟨true, "Hello".data⟩) "Thanks!".data = some ("Hello Thanks!".data, 13) := by
  have h := claim_append_draft_amended ⟨true, "Hello".data⟩ "Thanks!".data rfl (by decide)
  have h4 := h.2.2.2 'o' (by decide) (by decide) (by decide) (by decide)
  rw [h.1, h4]
  decide

/-! ## Claim C6 -/

/-- Counterexample to C6: while the modal is Submitting, the Escape key
and a click on the backdrop still close it — `handleKeyDown` and the
overlay click listener never consult the Submitting phase; only the two
buttons are disabled. -/
theorem claim_modal_dismissal_counterexample :
    modalDispatch ⟨true, true⟩ .escapeKey = (modalClosedUI, false) ∧
    modalDispatch ⟨true, true⟩ (.overlayClick true) = (modalClosedUI, false) ∧
    modalClosedUI.isOpen = false := by
  exact ⟨rfl, rfl, rfl⟩

/-- C6 (amended): in every open modal state, Escape, a backdrop click
outside the content box, and (outside Submitting) the Cancel control
close the modal, none of them sending a generate request, and clicks
inside the content box never close it; during Submitting the Cancel and
Submit buttons are disabled — so Cancel cannot close the modal and no
generate request can be sent — but Escape and backdrop clicks still
close it. -/
theorem claim_modal_dismissal_amended (st : ModalUIState) (h : st.isOpen = true) :
    modalDispatch st .escapeKey = (modalClosedUI, false) ∧
    modalDispatch st (.overlayClick true) = (modalClosedUI, false) ∧
    modalDispatch st (.overlayClick false) = (st, false) ∧
    (st.submitting = false → modalDispatch st .cancelClick = (modalClosedUI, false)) ∧
    (st.submitting = true → modalDispatch st .cancelClick = (st, false)) ∧
    (∀ e : ModalEvent, e ≠ .submitClick → (modalDispatch st e).2 = false) ∧
    (st.submitting = true → ∀ e : ModalEvent, (modalDispatch st e).2 = false) := by
  refine ⟨?_, ?_, ?_, ?_, ?_, ?_, ?_⟩
  · simp [modalDispatch, h]
  · simp [modalDispatch, h]
  · simp [modalDispatch, h]
  · intro hs; simp [modalDispatch, h, hs]
  · intro hs; simp [modalDispatch, h, hs]
  · intro e he
    cases e with
    | escapeKey => simp [modalDispatch, h]
    | overlayClick b => cases b <;> simp [modalDispatch, h]
    | cancelClick => by_cases hs : st.submitting <;> simp [modalDispatch, h, hs]
    | submitClick => exact absurd rfl he
  · intro hs e
    cases e with
    | escapeKey => simp [modalDispatch, h]
    | overlayClick b => cases b <;> simp [modalDispatch, h]
    | cancelClick => simp [modalDispatch, h, hs]
    | submitClick => simp [modalDispatch, h, hs]

/-- Witness for C6 (amended): with the modal open and not Submitting,
Cancel closes it without a generate request. -/
theorem claim_modal_dismissal_amended_witness :
    modalDispatch ⟨true, false⟩ .cancelClick = (modalClosedUI, false) :=
  (claim_modal_dismissal_amended ⟨true, false⟩ rfl).2.2.2.1 rfl

/-! ## Claim C7 -/

/-- A generic-surface improve result arriving with a recorded selection
range that sits in a non-editable part of the page: every insertion
strategy fails. -/
def strandedEnv : ImproveEnv :=
  { activeComposeWindow := false, gmailExecOk := false, hasInputSelection := false
    rangeInInput := false, inputInjectThrows := false, hasSelectionRange := true
    selectionEditable := false, overlayExecOk := false, hasCurrentSelection := false }

/-- Counterexample to C7: when every insertion strategy fails for a
generic-surface result with a recorded selection, the handler writes
nothing to the clipboard, shows no banner, no overlay and no alert — it
only flips the action icon to the error state.  The improved text is
discarded. -/
theorem claim_insertion_fallback_counterexample :
    replaceOrShowOverlay strandedEnv = false ∧
    handleImproveTextResult "generic" strandedEnv =
      { clipboardWritten := false, banner := none, overlayShown := false
        alertShown := false, iconState := "error" } := by
  exact ⟨rfl, rfl⟩

/-- C7 (amended): the improve-result handler never writes the system
clipboard itself (the only clipboard write in the code sits behind the
manual Copy button of the suggestion overlay); when the Gmail in-place
insertion command fails, an error banner is shown and the icon goes to
the error state, and when every generic-surface strategy fails on a
recorded selection, the text is dropped with no banner, overlay or
alert — only the error icon state signals the failure. -/
theorem claim_insertion_fallback_amended (source : String) (env : ImproveEnv) :
    (handleImproveTextResult source env).clipboardWritten = false ∧
    (source = "gmail" → env.activeComposeWindow = true → env.gmailExecOk = false →
      handleImproveTextResult source env =
        { clipboardWritten := false, banner := some "error", overlayShown := false
          alertShown := false, iconState := "error" }) ∧
    (source = "generic" → env.hasInputSelection = false → env.rangeInInput = false →
      env.hasSelectionRange = true → (env.selectionEditable && env.overlayExecOk) = false →
      handleImproveTextResult source env =
        { clipboardWritten := false, banner := none, overlayShown := false
          alertShown := false, iconState := "error" }) := by
  refine ⟨?_, ?_, ?_⟩
  · unfold handleImproveTextResult
    split_ifs <;> rfl
  · intro h1 h2 h3
    simp [handleImproveTextResult, h1, h2, h3]
  · intro h1 h2 h3 h4 h5
    have h6 : replaceOrShowOverlay env = false := by
      rw [replaceOrShowOverlay, Bool.and_assoc, h5, Bool.and_false]
    simp [handleImproveTextResult, h1, h2, h3, h4, h6]

/-- The environment of a Gmail improve result whose in-place insertion
command fails. -/
def gmailFailEnv : ImproveEnv :=
  { activeComposeWindow := true, gmailExecOk := false, hasInputSelection := false
    rangeInInput := false, inputInjectThrows := false, hasSelectionRange := false
    selectionEditable := false, overlayExecOk := false, hasCurrentSelection := false }

/-- Witness for C7 (amended): the failed Gmail insertion shows the error
banner, writes nothing to the clipboard and sets the error icon. -/
theorem claim_insertion_fallback_amended_witness :
    handleImproveTextResult "gmail" gmailFailEnv =
      { clipboardWritten := false, banner := some "error", overlayShown := false
        alertShown := false, iconState := "error" } :=
  (claim_insertion_fallback_amended "gmail" gmailFailEnv).2.1 rfl rfl rfl

/-! ## Claim C8 -/

/-- C8: the modal prefill is the HTML-decoded value of the trimmed
selection (whenever a non-empty selection decodes to a non-empty string),
and on the spec's concrete example "  Hi <there> & co  " the prefill is
exactly "Hi <there> & co". -/
theorem claim_modal_prefill (sel : List Char) (h1 : sel ≠ [])
    (h2 : htmlDecodeChars (trimChars sel) ≠ []) :
    modalPrefill sel = htmlDecodeChars (trimChars sel) ∧
    modalPrefill "  Hi <there> & co  ".data = "Hi <there> & co".data := by
  constructor
  · simp [modalPrefill, h1, h2]
  · decide

/-- Witness for C8: a selection with a leading/trailing space and an
`&amp;` entity is trimmed and decoded into the prefill. -/
theorem claim_modal_prefill_witness :
    modalPrefill " Review &amp; send ".data =
      htmlDecodeChars (trimChars " Review &amp; send ".data) ∧
    htmlDecodeChars (trimChars " Review &amp; send ".data) = "Review & send".data := by
  exact ⟨(claim_modal_prefill " Review &amp; send ".data (by decide) (by decide)).1, by decide⟩

/-! ## Claim C9 -/

/-- Counterexample to C9: substitution can create a new placeholder
token across the boundary of a removed one.  With the template
`"[Bullet_po[Email_context]ints]"`, talking points `"x"` and context
`""` (both placeholder-free), the first `createPrompt` yields the string
`"[Bullet_points]"`, and applying `createPrompt` to that result again
changes it to `"x"` — re-substitution is not a no-op. -/
theorem claim_create_prompt_counterexample :
    containsSeq "x".data BULLET_TOKEN.data = false ∧
    containsSeq "x".data CONTEXT_TOKEN.data = false ∧
    containsSeq "".data BULLET_TOKEN.data = false ∧
    containsSeq "".data CONTEXT_TOKEN.data = false ∧
    createPrompt "[Bullet_po[Email_context]ints]" "x" "" = "[Bullet_points]" ∧
    createPrompt (createPrompt "[Bullet_po[Email_context]ints]" "x" "") "x" "" = "x" ∧
    ("x" : String) ≠ "[Bullet_points]" := by
  decide

/-- C9 (amended): `createPrompt` substitutes every occurrence of
`[Bullet_points]` and then every occurrence of `[Email_context]`;
whenever the resulting string contains no remaining placeholder token
(which holds unless a substitution forms a new token across boundaries),
applying `createPrompt` to it again returns it unchanged. -/
theorem claim_create_prompt_amended (template a b : String)
    (h1 : containsSeq (createPrompt template a b).data BULLET_TOKEN.data = false)
    (h2 : containsSeq (createPrompt template a b).data CONTEXT_TOKEN.data = false) :
    createPrompt (createPrompt template a b) a b = createPrompt template a b := by
  have e1 : replaceAllStr (createPrompt template a b) BULLET_TOKEN a =
      createPrompt template a b := replaceAllStr_of_not_contains _ _ _ h1
  have e2 : replaceAllStr (createPrompt template a b) CONTEXT_TOKEN b =
      createPrompt template a b := replaceAllStr_of_not_contains _ _ _ h2
  show replaceAllStr (replaceAllStr (createPrompt template a b) BULLET_TOKEN a)
      CONTEXT_TOKEN b = createPrompt template a b
  rw [e1, e2]

/-- Witness for C9 (amended): on an ordinary template both placeholders
are substituted and re-substitution is a no-op. -/
theorem claim_create_prompt_amended_witness :
    createPrompt
        (createPrompt "Points:\n[Bullet_points]\nContext:\n[Email_context]" "be brief" "client")
        "be brief" "client" =
      createPrompt "Points:\n[Bullet_points]\nContext:\n[Email_context]" "be brief" "client" :=
  claim_create_prompt_amended _ _ _ (by decide) (by decide)

/-! ## Claim C10 -/

/-- C10: `extractEmailContext` is total and always yields a non-empty
string of length at most `MAX_CONTEXT_LENGTH` plus the truncation
marker; container text whose trimmed form exceeds 3000 characters is cut
to its first 3000 characters plus the fixed marker; a missing container
yields the fixed "could not be determined" message and an internal error
the fixed "Error extracting email context." message. -/
theorem claim_extract_context_spec (container : Option (List Char)) (errored : Bool) :
    extractEmailContext container errored ≠ [] ∧
    (extractEmailContext container errored).length ≤
      MAX_CONTEXT_LENGTH + TRUNCATION_MARKER.length ∧
    (∀ txt : List Char, container = some txt → errored = false →
      MAX_CONTEXT_LENGTH < (trimChars txt).length →
      extractEmailContext container errored =
        (trimChars txt).take MAX_CONTEXT_LENGTH ++ TRUNCATION_MARKER) ∧
    (container = none → errored = false →
      extractEmailContext container errored = "Email context could not be determined.".data) ∧
    (errored = true → extractEmailContext container errored =
      "Error extracting email context.".data) := by
  cases errored with
  | true =>
    have hres : extractEmailContext container true =
        "Error extracting email context.".data := rfl
    refine ⟨by rw [hres]; decide, by rw [hres]; decide, ?_, ?_, fun _ => rfl⟩
    · intro txt _ he
      simp at he
    · intro _ he
      simp at he
  | false =>
    cases container with
    | none =>
      refine ⟨by decide, by decide, ?_, fun _ _ => rfl, ?_⟩
      · intro txt hc
        simp at hc
      · intro he
        simp at he
    | some txt =>
      by_cases he : trimChars txt = []
      · have hres : extractEmailContext (some txt) false = "Container found but empty".data := by
          simp [extractEmailContext, he, MAX_CONTEXT_LENGTH]
        refine ⟨?_, ?_, ?_, ?_, ?_⟩
        · rw [hres]; decide
        · rw [hres]; decide
        · intro txt0 hc _ hlen
          obtain rfl : txt = txt0 := by injection hc
          rw [he] at hlen
          simp at hlen
        · intro hc
          simp at hc
        · intro hf
          simp at hf
      · by_cases hlen : MAX_CONTEXT_LENGTH < (trimChars txt).length
        · have hres : extractEmailContext (some txt) false =
              (trimChars txt).take MAX_CONTEXT_LENGTH ++ TRUNCATION_MARKER := by
            simp [extractEmailContext, he, hlen]
          refine ⟨?_, ?_, ?_, ?_, ?_⟩
          · rw [hres]
            intro hnil
            rw [List.append_eq_nil] at hnil
            exact absurd hnil.2 (by decide)
          · rw [hres, List.length_append, List.length_take]
            have := Nat.min_le_left MAX_CONTEXT_LENGTH (trimChars txt).length
            omega
          · intro txt0 hc _ _
            obtain rfl : txt = txt0 := by injection hc
            exact hres
          · intro hc
            simp at hc
          · intro hf
            simp at hf
        · have hres : extractEmailContext (some txt) false = trimChars txt := by
            simp [extractEmailContext, he, hlen]
          refine ⟨?_, ?_, ?_, ?_, ?_⟩
          · rw [hres]; exact he
          · rw [hres]; omega
          · intro txt0 hc _ hlen0
            obtain rfl : txt = txt0 := by injection hc
            exact absurd hlen0 hlen
          · intro hc
            simp at hc
          · intro hf
            simp at hf

/-- Witness for C10: with no enclosing container and no error, the fixed
default message is returned. -/
theorem claim_extract_context_spec_witness :
    extractEmailContext none false = "Email context could not be determined.".data :=
  (claim_extract_context_spec none false).2.2.2.1 rfl rfl
